import Mathlib

/-!
Verification of the yolo_ros node (yolo_ros/yolo_ros/yolo_node.py).

The node's result-normalization functions (parse_hypothesis, parse_boxes,
parse_masks, parse_keypoints), the per-frame callback (image_cb), the
runtime enable toggle (enable_cb), and the lifecycle transition callbacks
(on_activate, on_deactivate, on_cleanup, on_shutdown) are shallowly
embedded below.  External collaborators (the ultralytics detector, the ROS
transport, cv_bridge) are opaque in the source and are modelled as opaque
inputs: the detector's raw per-frame output is a `Results` value, the
cv_bridge conversion outcome is an `Except` value, and publishing is the
list of outbound messages the callback would hand to the transport.
Python floats are modelled as rationals; Python exceptions escaping a
function are modelled as `Except` errors / error components of the result.
-/

namespace YoloRos

/-! ## Raw detector output (ultralytics `Results`), as consumed by the node -/

/-- One entry of `results.boxes`: class index `cls`, score `conf`, and the
`xywh[0]` row (center x, center y, width, height). -/
structure BoxEntry where
  cls : Nat
  conf : Rat
  xywh : Rat × Rat × Rat × Rat
  deriving DecidableEq

/-- One entry of `results.obb`: class index, score, and the `xywhr[i]` row
(center x, center y, width, height, rotation). -/
structure ObbEntry where
  cls : Nat
  conf : Rat
  xywhr : Rat × Rat × Rat × Rat × Rat
  deriving DecidableEq

/-- One entry of `results.masks`: the first contour `mask.xy[0]` as a point
list. -/
structure MaskEntry where
  xy0 : List (Rat × Rat)
  deriving DecidableEq

/-- One entry of `results.keypoints` (one instance): `points.xy[0]` is the
per-keypoint coordinate list and `points.conf` is `None` or carries the
per-keypoint confidence row `points.conf[0]`. -/
structure KeypointInstance where
  xy0 : List (Rat × Rat)
  conf0 : Option (List Rat)
  deriving DecidableEq

/-- The raw detector output for one frame.  Each attribute is `None`
(`Option.none`) or an entry list; `orig_shape` is
`(orig_img.shape[0], orig_img.shape[1])`. -/
structure Results where
  boxes : Option (List BoxEntry)
  obb : Option (List ObbEntry)
  masks : Option (List MaskEntry)
  keypoints : Option (List KeypointInstance)
  orig_shape : Nat × Nat
  deriving DecidableEq

/-- Python truthiness of a `results` attribute: `None` is falsy, and an
ultralytics tensor wrapper is truthy exactly when its length is nonzero. -/
def truthy {α : Type} (o : Option (List α)) : Bool :=
  match o with
  | none => false
  | some l => !l.isEmpty

/-- `len(result)`: ultralytics `Results.__len__` returns the length of the
first attribute (in key order boxes, masks, keypoints, obb) that is not
`None`. -/
def Results.len (r : Results) : Nat :=
  match r.boxes with
  | some l => l.length
  | none =>
    match r.masks with
    | some l => l.length
    | none =>
      match r.keypoints with
      | some l => l.length
      | none =>
        match r.obb with
        | some l => l.length
        | none => 0

/-! ## Outbound message schema (yolo_msgs) -/

/-- The frame/timestamp reference of a message (`header`). -/
structure Header where
  frame_id : String
  stamp : Nat
  deriving DecidableEq

/-- `BoundingBox2D`: center position/orientation and size.  Message fields
default to zero. -/
structure BoundingBox2D where
  cx : Rat := 0
  cy : Rat := 0
  theta : Rat := 0
  sx : Rat := 0
  sy : Rat := 0
  deriving DecidableEq

/-- `KeyPoint2D`: 1-based id, point, score. -/
structure KeyPoint2D where
  id : Nat
  x : Rat
  y : Rat
  score : Rat
  deriving DecidableEq

/-- `Mask` message: polygon contour plus source image height/width.
Defaults to empty. -/
structure MaskMsg where
  data : List (Rat × Rat) := []
  height : Nat := 0
  width : Nat := 0
  deriving DecidableEq

/-- The hypothesis dict produced by `parse_hypothesis`. -/
structure Hypothesis where
  class_id : Nat
  class_name : String
  score : Rat
  deriving DecidableEq

/-- `Detection` message: hypothesis fields, box, mask, keypoint array.  All
fields default to the ROS message defaults. -/
structure Detection where
  class_id : Nat := 0
  class_name : String := ""
  score : Rat := 0
  bbox : BoundingBox2D := {}
  mask : MaskMsg := {}
  keypoints : List KeyPoint2D := []
  deriving DecidableEq

/-- `DetectionArray` message: header plus detection list. -/
structure DetectionArray where
  header : Header
  detections : List Detection
  deriving DecidableEq

/-! ## Result normalization (parse_hypothesis / parse_boxes / parse_masks /
parse_keypoints) -/

/-- `YoloNode.parse_hypothesis`: if `results.boxes` is truthy, one
hypothesis per box entry; elif `results.obb` is truthy, one per obb entry;
else empty.  `names` stands for `self.yolo.names`. -/
def parse_hypothesis (names : Nat → String) (r : Results) : List Hypothesis :=
  if truthy r.boxes then
    (r.boxes.getD []).map (fun b => ⟨b.cls, names b.cls, b.conf⟩)
  else if truthy r.obb then
    (r.obb.getD []).map (fun o => ⟨o.cls, names o.cls, o.conf⟩)
  else []

/-- `YoloNode.parse_boxes`: mirrors the branch structure of
`parse_hypothesis`; the axis-aligned branch fills center and size (theta
keeps its message default), the oriented branch additionally fills theta. -/
def parse_boxes (r : Results) : List BoundingBox2D :=
  if truthy r.boxes then
    (r.boxes.getD []).map (fun b =>
      { cx := b.xywh.1, cy := b.xywh.2.1, sx := b.xywh.2.2.1, sy := b.xywh.2.2.2 })
  else if truthy r.obb then
    (r.obb.getD []).map (fun o =>
      { cx := o.xywhr.1, cy := o.xywhr.2.1, theta := o.xywhr.2.2.2.2,
        sx := o.xywhr.2.2.1, sy := o.xywhr.2.2.2.1 })
  else []

/-- `YoloNode.parse_masks`: one `Mask` message per entry of
`results.masks`, copying the first contour and the source image shape. -/
def parse_masks (r : Results) : List MaskMsg :=
  (r.masks.getD []).map (fun m =>
    { data := m.xy0, height := r.orig_shape.1, width := r.orig_shape.2 })

/-- The inner loop of `YoloNode.parse_keypoints`:
`for kp_id, (p, conf) in enumerate(zip(points.xy[0], points.conf[0]))`,
keeping a keypoint with id `kp_id + 1` when `conf >= self.threshold`.
`kp_id` is the running enumerate counter, advanced on every iteration
whether or not the keypoint survives the filter. -/
def kpLoop (threshold : Rat) : Nat → List ((Rat × Rat) × Rat) → List KeyPoint2D
  | _, [] => []
  | kp_id, (p, conf) :: rest =>
    if threshold ≤ conf then
      ⟨kp_id + 1, p.1, p.2, conf⟩ :: kpLoop threshold (kp_id + 1) rest
    else kpLoop threshold (kp_id + 1) rest

/-- `YoloNode.parse_keypoints`: for each instance of `results.keypoints`,
skip the instance entirely (`continue`) when `points.conf is None`,
otherwise emit the filtered keypoint array built by `kpLoop`.  The output
list is therefore shorter than the instance list when some instance lacks
confidence data. -/
def parse_keypoints (threshold : Rat) (instances : List KeypointInstance) :
    List (List KeyPoint2D) :=
  instances.filterMap (fun points =>
    match points.conf0 with
    | none => none
    | some confs => some (kpLoop threshold 0 (points.xy0.zip confs)))

/-! ## Per-frame callback (image_cb) -/

/-- An exception escaping the per-frame callback.  `image_cb` has no
try/except of its own, so any exception raised in its body propagates to
the caller. -/
inductive CbError
  | decodeError
  | indexError
  deriving DecidableEq

/-- An outbound message the callback hands to the transport: the detection
batch on the `detections` topic, or the annotated image on
`detections_img`. -/
inductive Pub
  | batch (msg : DetectionArray)
  | annotatedImage (header : Header)
  deriving DecidableEq

/-- Python list indexing `l[i]`: raises IndexError when out of range. -/
def getOrThrow {α : Type} (l : List α) (i : Nat) : Except CbError α :=
  match l.get? i with
  | some a => Except.ok a
  | none => Except.error CbError.indexError

/-- One iteration of the assembly loop of `image_cb` at instance index `i`,
starting from a default-constructed `Detection()`.

The first guard is `result.boxes or result.obb and hypothesis and boxes`,
which by Python precedence is
`result.boxes or (result.obb and hypothesis and boxes)`; the second and
third guards are `result.masks and masks` and
`result.keypoints and keypoints`, where the bare names are the local lists
(truthy iff nonempty).  Each index access models Python `l[i]`. -/
def assembleOne (r : Results) (hyps : List Hypothesis)
    (bxs : List BoundingBox2D) (msks : List MaskMsg)
    (kps : List (List KeyPoint2D)) (i : Nat) : Except CbError Detection := do
  let aux0 : Detection := {}
  let aux1 ←
    if truthy r.boxes || (truthy r.obb && !hyps.isEmpty && !bxs.isEmpty) then do
      let h ← getOrThrow hyps i
      let b ← getOrThrow bxs i
      pure { aux0 with class_id := h.class_id, class_name := h.class_name,
                       score := h.score, bbox := b }
    else pure aux0
  let aux2 ←
    if truthy r.masks && !msks.isEmpty then do
      let m ← getOrThrow msks i
      pure { aux1 with mask := m }
    else pure aux1
  if truthy r.keypoints && !kps.isEmpty then do
    let k ← getOrThrow kps i
    pure { aux2 with keypoints := k }
  else pure aux2

/-- `YoloNode.image_cb`.  `enable` is `self.enable`;
`publish_result_img`, `threshold` and `names` are the corresponding node
attributes.  `decoded` is the outcome of the opaque
`cv_bridge.imgmsg_to_cv2` call (its error models a cv_bridge conversion
exception), `r` is the raw output the opaque `self.yolo.predict` call
returns for this frame, and `header` is `input_img_msg.header`.

The local lists `hypothesis`, `boxes`, `masks`, `keypoints` are bound in
the source only under their guards; a guard that would read an unbound
name short-circuits first in every reachable path, so binding the lists to
`[]` in the unguarded case is observationally equivalent.  The returned
list is what the callback publishes; an `Except.error` is an exception
escaping the callback (in which case nothing is published). -/
def image_cb (enable : Bool) (publish_result_img : Bool) (threshold : Rat)
    (names : Nat → String) (decoded : Except Unit Unit) (r : Results)
    (header : Header) : Except CbError (List Pub) :=
  if enable then
    match decoded with
    | Except.error _ => Except.error CbError.decodeError
    | Except.ok _ =>
      let hyps := if truthy r.boxes || truthy r.obb then parse_hypothesis names r else []
      let bxs := if truthy r.boxes || truthy r.obb then parse_boxes r else []
      let msks := if truthy r.masks then parse_masks r else []
      let kps :=
        if truthy r.keypoints then parse_keypoints threshold (r.keypoints.getD [])
        else []
      match (List.range r.len).mapM (assembleOne r hyps bxs msks kps) with
      | Except.error e => Except.error e
      | Except.ok dets =>
        Except.ok (Pub.batch ⟨header, dets⟩ ::
          (if publish_result_img then [Pub.annotatedImage header] else []))
  else Except.ok []

/-! ## Enable toggle and the event stream -/

/-- The mutable per-stream node state the enable service touches. -/
structure StreamState where
  enable : Bool
  deriving DecidableEq

/-- `YoloNode.enable_cb`: store `request.data` into `self.enable` and
answer with `success = True`. -/
def enable_cb (st : StreamState) (data : Bool) : StreamState × Bool :=
  ({ st with enable := data }, true)

/-- An external event hitting the active node: an enable-service request,
or an inbound image (carrying its opaque decode outcome and the raw
detector output the predictor would produce for it). -/
inductive Event
  | setEnable (data : Bool)
  | frame (decoded : Except Unit Unit) (r : Results) (header : Header)

/-- Whether an event is an inbound image. -/
def Event.isFrame : Event → Bool
  | Event.setEnable _ => false
  | Event.frame _ _ _ => true

/-- One event handled by the active node: the enable service publishes
nothing; a frame publishes whatever `image_cb` returns, and an exception
escaping the callback publishes nothing. -/
def step (publish_result_img : Bool) (threshold : Rat) (names : Nat → String)
    (st : StreamState) (e : Event) : StreamState × List Pub :=
  match e with
  | Event.setEnable b => ((enable_cb st b).1, [])
  | Event.frame dec r hdr =>
    match image_cb st.enable publish_result_img threshold names dec r hdr with
    | Except.ok pubs => (st, pubs)
    | Except.error _ => (st, [])

/-- Run the node over an event sequence, collecting everything published. -/
def run (publish_result_img : Bool) (threshold : Rat) (names : Nat → String)
    (st : StreamState) : List Event → StreamState × List Pub
  | [] => (st, [])
  | e :: es =>
    let s1 := step publish_result_img threshold names st e
    let s2 := run publish_result_img threshold names s1.1 es
    (s2.1, s1.2 ++ s2.2)

/-! ## Lifecycle transitions (on_activate / on_deactivate / on_cleanup /
on_shutdown) -/

/-- The model family a `type_to_model` entry constructs (`YOLO` or
`YOLOWorld`). -/
inductive ModelFamily
  | yolo
  | yoloWorld
  deriving DecidableEq

/-- `self.type_to_model`: the dict `{"YOLO": YOLO, "World": YOLOWorld}`;
`none` models the KeyError a missing key raises. -/
def type_to_model : String → Option ModelFamily
  | "YOLO" => some ModelFamily.yolo
  | "World" => some ModelFamily.yoloWorld
  | _ => none

/-- Outcome of the opaque model-constructor call
`self.type_to_model[self.model_type](self.model)`: success, a
FileNotFoundError (missing artifact), or any other exception. -/
inductive LoadOutcome
  | ok
  | fileNotFound
  | otherError
  deriving DecidableEq

/-- Outcome of the opaque `self.yolo.fuse()` call: success, a TypeError,
or any other exception. -/
inductive FuseOutcome
  | ok
  | typeError
  | otherError
  deriving DecidableEq

/-- A lifecycle transition callback's return value. -/
inductive TransitionResult
  | success
  | error
  deriving DecidableEq

/-- The node attributes `on_activate` and `on_deactivate` create and
destroy.  `yolo = none` models the attribute being absent (never assigned,
or deleted by `del`); a false/none service or subscription field models
the handle being absent or already destroyed. -/
structure NodeRes where
  yolo : Option ModelFamily := none
  enable_srv : Bool := false
  set_classes_srv : Bool := false
  sub : Bool := false
  deriving DecidableEq

/-- `YoloNode.on_activate`.  The whole body is wrapped in
`try ... except Exception: return ERROR`, and the constructor call is
additionally wrapped in `except FileNotFoundError: return ERROR`.  Both
model families satisfy `isinstance(self.yolo, YOLO) or isinstance(self.yolo,
YOLOWorld)`, so fuse is attempted for both; only a TypeError from fuse is
caught (logged), any other fuse exception reaches the outer handler.  On
the success path the enable service, the `set_classes` service (YOLOWorld
only) and the image subscription are registered, in that order.  The
returned `NodeRes` is the attribute state when the callback returns,
including the state at the point an exception was raised. -/
def on_activate (model_type : String) (load : LoadOutcome)
    (fuse : FuseOutcome) (n : NodeRes) : TransitionResult × NodeRes :=
  match type_to_model model_type with
  | none => (TransitionResult.error, n)
  | some fam =>
    match load with
    | LoadOutcome.fileNotFound => (TransitionResult.error, n)
    | LoadOutcome.otherError => (TransitionResult.error, n)
    | LoadOutcome.ok =>
      let n1 := { n with yolo := some fam }
      match fuse with
      | FuseOutcome.otherError => (TransitionResult.error, n1)
      | _ =>
        let n2 := { n1 with enable_srv := true }
        let n3 :=
          if fam = ModelFamily.yoloWorld then { n2 with set_classes_srv := true }
          else n2
        (TransitionResult.success, { n3 with sub := true })

/-- A Python exception escaping a lifecycle callback. -/
inductive PyError
  | attributeError
  deriving DecidableEq

/-- `YoloNode.on_deactivate`.  The body runs, in order: `del self.yolo`
(AttributeError if the attribute is absent); the CUDA cache clear (opaque,
no modelled state); `destroy_service(self._enable_srv)` and the reset of
that attribute; then `if isinstance(self.yolo, YOLOWorld):` — which reads
`self.yolo` *after* it was deleted.  The result pairs the exception (if
one escaped) with the attribute state at that point; mutations made before
the raise persist on the node object. -/
def on_deactivate (n : NodeRes) : Option PyError × NodeRes :=
  match n.yolo with
  | none => (some PyError.attributeError, n)
  | some _ =>
    let n1 := { n with yolo := none }
    let n2 := { n1 with enable_srv := false }
    match n2.yolo with
    | none => (some PyError.attributeError, n2)
    | some fam =>
      let n3 :=
        if fam = ModelFamily.yoloWorld then { n2 with set_classes_srv := false }
        else n2
      (none, { n3 with sub := false })

/-- The resources `on_configure` creates and `on_cleanup` destroys: the
detection publisher (always created), the annotated-image publisher
(created only when `publish_result_img` is set), and the stored QoS
profile. -/
structure ConfiguredRes where
  detection_pub : Bool
  image_pub : Option Unit
  image_qos_profile : Bool
  deriving DecidableEq

/-- `YoloNode.on_cleanup`: destroy the detection publisher, destroy the
image publisher if it is not `None`, and delete the stored QoS profile. -/
def on_cleanup (r : ConfiguredRes) : ConfiguredRes :=
  let r1 := { r with detection_pub := false }
  let r2 :=
    match r1.image_pub with
    | some _ => { r1 with image_pub := none }
    | none => r1
  { r2 with image_qos_profile := false }

/-- `YoloNode.on_shutdown`: the body logs and calls
`super().on_cleanup(state)` — the *base class* hook, not the node's own
`on_cleanup` — so none of the node-level resources modelled in
`ConfiguredRes` are destroyed. -/
def on_shutdown (r : ConfiguredRes) : ConfiguredRes :=
  r

/-! ## Concrete inputs used by the claim-level theorems.
Confidence values are scaled rationals (percent-style); only their order
relative to the threshold matters to the node. -/

/-- Keypoint instance 0: confidence data present. -/
def kpInstA : KeypointInstance := ⟨[(1, 2)], some [90]⟩

/-- Keypoint instance 1: `points.conf is None`. -/
def kpInstB : KeypointInstance := ⟨[(3, 4)], none⟩

/-- Keypoint instance 2: confidence data present. -/
def kpInstC : KeypointInstance := ⟨[(5, 6)], some [80]⟩

/-- A box entry for detected instance `k`. -/
def boxE (k : Nat) : BoxEntry := ⟨k, 90, (10, 10, 4, 4)⟩

/-- A raw result with three detected instances whose keypoint confidence
data is present for instances 0 and 2 only. -/
def resultsC1 : Results :=
  { boxes := some [boxE 0, boxE 1, boxE 2], obb := none, masks := none,
    keypoints := some [kpInstA, kpInstB, kpInstC], orig_shape := (480, 640) }

/-- A raw result with no detections at all (every attribute `None`). -/
def emptyResults : Results := ⟨none, none, none, none, (480, 640)⟩

end YoloRos

deriving instance DecidableEq for Except

namespace YoloRos

/-! ## Shared lemmas about the keypoint loop -/

/-- Every keypoint emitted by `kpLoop` passed the confidence filter and
carries an id strictly greater than the enumerate counter the loop started
from. -/
theorem kpLoop_mem (threshold : Rat) (start : Nat)
    (l : List ((Rat × Rat) × Rat)) (kp : KeyPoint2D)
    (hkp : kp ∈ kpLoop threshold start l) :
    threshold ≤ kp.score ∧ start + 1 ≤ kp.id := by
  induction l generalizing start with
  | nil => simp [kpLoop] at hkp
  | cons pc rest ih =>
    obtain ⟨p, conf⟩ := pc
    rw [kpLoop] at hkp
    by_cases hc : threshold ≤ conf
    · rw [if_pos hc] at hkp
      rcases List.mem_cons.mp hkp with h | h
      · subst h; exact ⟨hc, le_refl _⟩
      · have := ih (start + 1) h
        exact ⟨this.1, le_trans (Nat.le_succ _) this.2⟩
    · rw [if_neg hc] at hkp
      have := ih (start + 1) hkp
      exact ⟨this.1, le_trans (Nat.le_succ _) this.2⟩

/-- The ids emitted by `kpLoop` are strictly increasing along the output. -/
theorem kpLoop_chain (threshold : Rat) (start : Nat)
    (l : List ((Rat × Rat) × Rat)) :
    List.Chain' (fun a b : KeyPoint2D => a.id < b.id)
      (kpLoop threshold start l) := by
  induction l generalizing start with
  | nil => simp [kpLoop]
  | cons pc rest ih =>
    obtain ⟨p, conf⟩ := pc
    rw [kpLoop]
    by_cases hc : threshold ≤ conf
    · rw [if_pos hc]
      refine List.chain'_cons'.mpr ⟨?_, ih (start + 1)⟩
      intro b hb
      have hmem : b ∈ kpLoop threshold (start + 1) rest :=
        List.mem_of_mem_head? hb
      have := kpLoop_mem threshold (start + 1) rest b hmem
      simpa using lt_of_lt_of_le (Nat.lt_succ_self (start + 1)) this.2
    · rw [if_neg hc]; exact ih (start + 1)

/-! ## Claim-level theorems -/

/-- C1.  With keypoint confidence data present for instances 0 and 2 of 3
only, `parse_keypoints` emits exactly one keypoint set per instance with
confidence data (2 sets, shorter than the instance count) — but the
assembly loop of `image_cb` pairs the emitted sets by *position*: detection
index 1 receives the set that came from instance 2, and indexing
`keypoints[2]` then raises IndexError, so the whole callback fails.  This
evaluates the code at the failing input the claim is about. -/
theorem c1_keypoints_skip_and_positional_misassembly :
    parse_keypoints 50 [kpInstA, kpInstB, kpInstC] =
      [[⟨1, 1, 2, 90⟩], [⟨1, 5, 6, 80⟩]] ∧
    assembleOne resultsC1 (parse_hypothesis (fun _ => "person") resultsC1)
        (parse_boxes resultsC1) []
        (parse_keypoints 50 [kpInstA, kpInstB, kpInstC]) 1 =
      Except.ok { class_id := 1, class_name := "person", score := 90,
                  bbox := { cx := 10, cy := 10, sx := 4, sy := 4 },
                  keypoints := [⟨1, 5, 6, 80⟩] } ∧
    image_cb true false 50 (fun _ => "person") (Except.ok ()) resultsC1
        ⟨"cam", 7⟩ =
      Except.error CbError.indexError := by
  refine ⟨by decide, by decide, by decide⟩

/-- C2 counterexample.  On a frame whose cv_bridge conversion fails, the
callback does not contain the failure: the decode exception escapes
`image_cb` (the claim would require the frame to be dropped with the
callback returning normally, `Except.ok []`). -/
theorem c2_decode_error_not_contained_cex :
    image_cb true false 0 (fun _ => "") (Except.error ()) emptyResults
        ⟨"cam", 7⟩ =
      Except.error CbError.decodeError ∧
    image_cb true false 0 (fun _ => "") (Except.error ()) emptyResults
        ⟨"cam", 7⟩ ≠
      Except.ok [] := by
  refine ⟨by decide, by decide⟩

/-- C2 (amended).  When the enabled node receives a frame whose decode
fails, no batch is published for that frame, but the decode error
propagates out of `image_cb` — the callback has no error handling of its
own, so the failure is not contained to the frame. -/
theorem c2_decode_error_propagates (pri : Bool) (th : Rat)
    (names : Nat → String) (r : Results) (hdr : Header) :
    image_cb true pri th names (Except.error ()) r hdr =
      Except.error CbError.decodeError := by
  rfl

/-- C2 witness: the amended theorem applied to a concrete failing
frame. -/
theorem c2_decode_error_propagates_witness :
    image_cb true true 50 (fun _ => "person") (Except.error ()) emptyResults
        ⟨"cam", 7⟩ =
      Except.error CbError.decodeError :=
  c2_decode_error_propagates true 50 (fun _ => "person") emptyResults
    ⟨"cam", 7⟩

/-- C3.  Every deactivate transition raises: `on_deactivate` executes
`del self.yolo` and later reads `self.yolo` in the `isinstance` check, so
an AttributeError escapes the callback for every starting state (both
model families included), and the image subscription is never
unregistered (nor is the `set_classes` service). -/
theorem c3_deactivate_raises_attribute_error (n : NodeRes) :
    (on_deactivate n).1 = some PyError.attributeError ∧
    (on_deactivate n).2.sub = n.sub ∧
    (on_deactivate n).2.set_classes_srv = n.set_classes_srv := by
  cases h : n.yolo <;> simp [on_deactivate, h]

/-- C3 witness: the theorem applied to a fully Active node with a plain
detector loaded. -/
theorem c3_deactivate_raises_witness :
    (on_deactivate ⟨some ModelFamily.yolo, true, false, true⟩).1 =
      some PyError.attributeError ∧
    (on_deactivate ⟨some ModelFamily.yolo, true, false, true⟩).2.sub =
      (⟨some ModelFamily.yolo, true, false, true⟩ : NodeRes).sub ∧
    (on_deactivate
        ⟨some ModelFamily.yolo, true, false, true⟩).2.set_classes_srv =
      (⟨some ModelFamily.yolo, true, false, true⟩ : NodeRes).set_classes_srv :=
  c3_deactivate_raises_attribute_error ⟨some ModelFamily.yolo, true, false, true⟩

/-- C4.  When the model constructor raises FileNotFoundError (missing
model artifact), `on_activate` returns ERROR — the node does not reach
Active — and, starting from the fresh Inactive attribute state, no
detector handle is stored and no service or image subscription is
registered. -/
theorem c4_activate_missing_model_stays_inactive (model_type : String)
    (fuse : FuseOutcome) :
    on_activate model_type LoadOutcome.fileNotFound fuse {} =
      (TransitionResult.error, {}) := by
  rw [on_activate]
  cases type_to_model model_type <;> rfl

/-- C4 witness: the theorem applied to the plain-detector configuration. -/
theorem c4_activate_missing_model_witness :
    on_activate "YOLO" LoadOutcome.fileNotFound FuseOutcome.ok {} =
      (TransitionResult.error, {}) :=
  c4_activate_missing_model_stays_inactive "YOLO" FuseOutcome.ok

/-- C5 counterexample.  A fuse failure that is not a TypeError is fatal:
the exception escapes the inner `except TypeError` handler, the outer
handler returns ERROR, and activation aborts (with the loaded detector
handle left assigned) — refuting the claim that a fuse error of any kind
is non-fatal. -/
theorem c5_fuse_other_error_aborts_cex :
    on_activate "YOLO" LoadOutcome.ok FuseOutcome.otherError {} =
      (TransitionResult.error, { yolo := some ModelFamily.yolo }) := by
  decide

/-- C5 (amended).  Only a TypeError raised by the fuse step is non-fatal
(logged, activation completes with the services and the subscription
registered); any other fuse error aborts the activation with ERROR,
leaving the loaded detector handle assigned. -/
theorem c5_fuse_only_type_error_nonfatal (model_type : String)
    (fam : ModelFamily) (h : type_to_model model_type = some fam) :
    on_activate model_type LoadOutcome.ok FuseOutcome.typeError {} =
      (TransitionResult.success,
        { yolo := some fam, enable_srv := true,
          set_classes_srv := decide (fam = ModelFamily.yoloWorld),
          sub := true }) ∧
    on_activate model_type LoadOutcome.ok FuseOutcome.otherError {} =
      (TransitionResult.error, { yolo := some fam }) := by
  rw [on_activate, on_activate, h]
  cases fam <;> simp

/-- C5 witness: the amended theorem applied to the open-vocabulary
family. -/
theorem c5_fuse_witness :
    on_activate "World" LoadOutcome.ok FuseOutcome.typeError {} =
      (TransitionResult.success,
        { yolo := some ModelFamily.yoloWorld, enable_srv := true,
          set_classes_srv :=
            decide (ModelFamily.yoloWorld = ModelFamily.yoloWorld),
          sub := true }) ∧
    on_activate "World" LoadOutcome.ok FuseOutcome.otherError {} =
      (TransitionResult.error, { yolo := some ModelFamily.yoloWorld }) :=
  c5_fuse_only_type_error_nonfatal "World" ModelFamily.yoloWorld (by decide)

/-- C6 counterexample.  For one instance with keypoint confidences
(90, 10, 90) against threshold 50, the middle keypoint is filtered out but
the enumerate counter still advances, so the surviving keypoints carry ids
1 and 3 — not the gap-free 1, 2 the claim requires. -/
theorem c6_keypoint_id_gap_cex :
    parse_keypoints 50 [⟨[(1, 1), (2, 2), (3, 3)], some [90, 10, 90]⟩] =
      [[⟨1, 1, 1, 90⟩, ⟨3, 3, 3, 90⟩]] ∧
    ([⟨1, 1, 1, 90⟩, ⟨3, 3, 3, 90⟩] : List KeyPoint2D).map KeyPoint2D.id ≠
      [1, 2] := by
  refine ⟨by decide, by decide⟩

/-- C6 (amended).  In every keypoint set emitted by `parse_keypoints`
every keypoint passed the confidence filter (score at or above the
threshold) and ids are 1-based and strictly increasing in iteration order;
the id records the keypoint's 1-based position among *all* of the
instance's keypoints, so ids may skip values where keypoints were filtered
out. -/
theorem c6_keypoint_ids_monotone_threshold (threshold : Rat)
    (instances : List KeypointInstance) (kps : List KeyPoint2D)
    (hkps : kps ∈ parse_keypoints threshold instances) :
    (∀ kp ∈ kps, threshold ≤ kp.score ∧ 1 ≤ kp.id) ∧
    List.Chain' (fun a b : KeyPoint2D => a.id < b.id) kps := by
  rw [parse_keypoints, List.mem_filterMap] at hkps
  obtain ⟨inst, _, hinst⟩ := hkps
  cases hconf : inst.conf0 with
  | none => rw [hconf] at hinst; simp at hinst
  | some confs =>
    rw [hconf] at hinst
    simp only [Option.some.injEq] at hinst
    subst hinst
    constructor
    · intro kp hkp
      have := kpLoop_mem threshold 0 (inst.xy0.zip confs) kp hkp
      simpa using this
    · exact kpLoop_chain threshold 0 _

/-- C6 witness: the amended theorem applied to a concrete emitted set. -/
theorem c6_keypoint_ids_witness :
    (∀ kp ∈ ([⟨1, 1, 1, 90⟩] : List KeyPoint2D),
      (50 : Rat) ≤ kp.score ∧ 1 ≤ kp.id) ∧
    List.Chain' (fun a b : KeyPoint2D => a.id < b.id)
      ([⟨1, 1, 1, 90⟩] : List KeyPoint2D) :=
  c6_keypoint_ids_monotone_threshold 50 [⟨[(1, 1)], some [90]⟩]
    [⟨1, 1, 1, 90⟩] (by decide)

/-- C7.  While the enable toggle is false, every inbound frame is a
complete no-op: over any event sequence consisting only of frames —
whatever their decode outcomes and raw detector results, failing decodes
included, since the conclusion holds for every such payload the node never
inspects — zero outbound messages are produced (no batch, empty or
otherwise, and no annotated image) and the node state is unchanged, until
an enable request arrives. -/
theorem c7_disabled_zero_batches (pri : Bool) (th : Rat)
    (names : Nat → String) (st : StreamState) (es : List Event)
    (hst : st.enable = false) (hes : ∀ e ∈ es, e.isFrame = true) :
    run pri th names st es = (st, []) := by
  induction es with
  | nil => rfl
  | cons e rest ih =>
    cases e with
    | setEnable b =>
      have := hes (Event.setEnable b) (List.mem_cons_self _ _)
      simp [Event.isFrame] at this
    | frame dec r hdr =>
      have hstep : step pri th names st (Event.frame dec r hdr) = (st, []) := by
        simp [step, image_cb, hst]
      rw [run, hstep]
      have := ih (fun e he => hes e (List.mem_cons_of_mem _ he))
      simp [this]

/-- C7 witness: a disabled node fed two frames (one of them with a failing
decode) publishes nothing. -/
theorem c7_disabled_witness :
    (⟨false⟩ : StreamState).enable = false ∧
    (∀ e ∈ [Event.frame (Except.error ()) emptyResults ⟨"cam", 7⟩,
            Event.frame (Except.ok ()) emptyResults ⟨"cam", 7⟩],
      e.isFrame = true) ∧
    run false 0 (fun _ => "") ⟨false⟩
        [Event.frame (Except.error ()) emptyResults ⟨"cam", 7⟩,
         Event.frame (Except.ok ()) emptyResults ⟨"cam", 7⟩] =
      (⟨false⟩, []) :=
  ⟨rfl, by decide,
    c7_disabled_zero_batches false 0 (fun _ => "") ⟨false⟩
      [Event.frame (Except.error ()) emptyResults ⟨"cam", 7⟩,
       Event.frame (Except.ok ()) emptyResults ⟨"cam", 7⟩]
      rfl (by decide)⟩

/-- C8.  On an enabled, successfully decoded frame for which the detector
reports zero instances, the callback still publishes: the batch carries
the source header unchanged and an empty detection sequence (followed by
the annotated image when that output is enabled). -/
theorem c8_zero_detections_empty_batch (pri : Bool) (th : Rat)
    (names : Nat → String) (hdr : Header) (r : Results)
    (hlen : r.len = 0) :
    image_cb true pri th names (Except.ok ()) r hdr =
      Except.ok (Pub.batch ⟨hdr, []⟩ ::
        (if pri then [Pub.annotatedImage hdr] else [])) := by
  rw [image_cb]
  simp only [hlen, List.range_zero]
  rfl

/-- C8 witness: a frame with no detections at all still yields the empty
batch (and the annotated image, here enabled) under the source header. -/
theorem c8_zero_detections_witness :
    emptyResults.len = 0 ∧
    image_cb true true 0 (fun _ => "") (Except.ok ()) emptyResults
        ⟨"cam", 7⟩ =
      Except.ok (Pub.batch ⟨⟨"cam", 7⟩, []⟩ ::
        (if true then [Pub.annotatedImage ⟨"cam", 7⟩] else [])) :=
  ⟨by decide,
    c8_zero_detections_empty_batch true 0 (fun _ => "") ⟨"cam", 7⟩
      emptyResults (by decide)⟩

/-- C9.  Shutdown is not cleanup-equivalent: starting from a configured
node holding the detection publisher, the annotated-image publisher and
the QoS profile, `on_cleanup` destroys all three while `on_shutdown`
(which calls only the base-class cleanup hook) destroys none of them. -/
theorem c9_shutdown_skips_cleanup_teardown :
    on_cleanup ⟨true, some (), true⟩ = ⟨false, none, false⟩ ∧
    on_shutdown ⟨true, some (), true⟩ = ⟨true, some (), true⟩ ∧
    on_shutdown ⟨true, some (), true⟩ ≠ on_cleanup ⟨true, some (), true⟩ := by
  refine ⟨by decide, by decide, by decide⟩

/-- C10.  `parse_hypothesis` and `parse_boxes` always return sequences of
equal length, and that common length is the axis-aligned entry count when
axis-aligned output is truthy, else the oriented entry count when oriented
output is truthy, else zero (both sequences empty) — so index `i` of one
always corresponds to index `i` of the other. -/
theorem c10_hypothesis_box_alignment (names : Nat → String) (r : Results) :
    (parse_hypothesis names r).length = (parse_boxes r).length ∧
    (parse_boxes r).length =
      (if truthy r.boxes then (r.boxes.getD []).length
       else if truthy r.obb then (r.obb.getD []).length else 0) := by
  by_cases hb : truthy r.boxes = true
  · simp [parse_hypothesis, parse_boxes, hb]
  · by_cases ho : truthy r.obb = true
    · simp [parse_hypothesis, parse_boxes, hb, ho]
    · simp [parse_hypothesis, parse_boxes, hb, ho]

/-- C10 witness: the theorem applied to a concrete axis-aligned result. -/
theorem c10_hypothesis_box_alignment_witness :
    (parse_hypothesis (fun _ => "person") resultsC1).length =
      (parse_boxes resultsC1).length ∧
    (parse_boxes resultsC1).length =
      (if truthy resultsC1.boxes then (resultsC1.boxes.getD []).length
       else if truthy resultsC1.obb then (resultsC1.obb.getD []).length
       else 0) :=
  c10_hypothesis_box_alignment (fun _ => "person") resultsC1

end YoloRos
